import Mathlib

/-
Verification development for the futures-trading decision core.

The definitions below are shallow embeddings of the Python source:
  src/src/account/account.py               (position ledger)
  src/src/risk_management/daily_drawdown_risk.py (daily drawdown gate)
  src/src/trading/contract_specs.py        (contract catalog)
  src/smart_auto_trading.py                (profitability evaluator)
  src/src/strategies/scalping_orderflow_strategy.py and
  src/src/strategies/hybrid_trend_scalp_strategy.py (order-flow filter,
    take-profit / stop-loss exit logic)

Python floats are modelled as rationals, Python ints as integers, dicts
as association lists with first-match lookup and in-place replacement
(preserving the source dict's insertion-order semantics).
-/

namespace Trading

/-- Direction of a position, from the PositionDirection enum in account.py. -/
inductive PositionDirection where
  | LONG
  | SHORT
deriving DecidableEq, Repr

/-- The enum value string used to build the position-map key
(LONG maps to the CJK string for long, SHORT to the one for short). -/
def PositionDirection.toValue : PositionDirection → String
  | .LONG => "多"
  | .SHORT => "空"

/-- Position dataclass from account.py: symbol, direction, volume (lots),
average entry price, running pnl, frozen quantity. -/
structure Position where
  symbol : String
  direction : PositionDirection
  volume : Int
  price : Rat
  pnl : Rat
  frozen : Int
deriving DecidableEq, Repr

/-- Position.update_pnl: returns (current_price - price) * volume for a
long position and (price - current_price) * volume for a short one.
Modelled as the returned value (the method also stores it in self.pnl,
which no claim depends on). -/
def Position.update_pnl (p : Position) (current_price : Rat) : Rat :=
  match p.direction with
  | .LONG => (current_price - p.price) * (p.volume : Rat)
  | .SHORT => (p.price - current_price) * (p.volume : Rat)

/-- Association-list model of a Python dict keyed by strings:
lookup returns the first binding for the key. -/
def lookupPos : List (String × Position) → String → Option Position
  | [], _ => none
  | (k0, p) :: rest, k => if k0 = k then some p else lookupPos rest k

/-- Dict assignment: replace the binding in place if the key is present,
otherwise append the new binding at the end (insertion order). -/
def insertPos : List (String × Position) → String → Position → List (String × Position)
  | [], k, v => [(k, v)]
  | (k0, p0) :: rest, k, v =>
      if k0 = k then (k, v) :: rest else (k0, p0) :: insertPos rest k v

/-- Dict deletion: remove the first binding for the key. -/
def erasePos : List (String × Position) → String → List (String × Position)
  | [], _ => []
  | (k0, p0) :: rest, k =>
      if k0 = k then rest else (k0, p0) :: erasePos rest k

/-- A trade record appended by AccountManager.record_trade. -/
structure TradeRecord where
  symbol : String
  direction : String
  volume : Int
  price : Rat
  trade_time : String
  commission : Rat
deriving DecidableEq, Repr

/-- An order record appended by AccountManager.record_order. -/
structure OrderRecord where
  order_id : String
  symbol : String
  direction : String
  volume : Int
  price : Rat
  status : String
  order_time : String
deriving DecidableEq, Repr

/-- AccountManager state from account.py.  update_time is modelled as an
opaque integer timestamp (datetime round-trips losslessly through
isoformat / fromisoformat). -/
structure AccountManager where
  account_id : String
  initial_capital : Rat
  balance : Rat
  available : Rat
  frozen : Rat
  margin : Rat
  commission : Rat
  positions : List (String × Position)
  trade_records : List TradeRecord
  order_records : List OrderRecord
  update_time : Int
deriving DecidableEq, Repr

/-- AccountManager.__init__. -/
def AccountManager.init (account_id : String) (initial_capital : Rat)
    (now : Int) : AccountManager :=
  { account_id := account_id
    initial_capital := initial_capital
    balance := initial_capital
    available := initial_capital
    frozen := 0
    margin := 0
    commission := 0
    positions := []
    trade_records := []
    order_records := []
    update_time := now }

/-- Offset flag passed to update_position (the source compares the string
against the CJK word for "open"). -/
inductive OffsetFlag where
  | open_pos
  | close_pos
deriving DecidableEq, Repr

/-- The position-map key f-string from account.py. -/
def positionKey (symbol : String) (direction : PositionDirection) : String :=
  symbol ++ "_" ++ direction.toValue

/-- AccountManager.update_position.  Opening recomputes the volume-weighted
average price (the division total_cost / total_volume raises in Python when
total_volume is 0; that point is unreachable under positive-volume fills).
Closing decrements volume only when the tracked volume covers the fill,
deleting the entry at zero; otherwise the position is left untouched.
The margin / available adjustment by price * volume * 0.1 always runs. -/
def AccountManager.update_position (a : AccountManager) (symbol : String)
    (direction : PositionDirection) (volume : Int) (price : Rat)
    (offset_flag : OffsetFlag) : AccountManager :=
  let key := positionKey symbol direction
  let a1 :=
    match offset_flag with
    | .open_pos =>
        match lookupPos a.positions key with
        | some old_pos =>
            let total_volume := old_pos.volume + volume
            let total_cost := old_pos.price * (old_pos.volume : Rat) + price * (volume : Rat)
            let avg_price := total_cost / (total_volume : Rat)
            let upd := { old_pos with volume := total_volume, price := avg_price }
            { a with positions := insertPos a.positions key upd }
        | none =>
            let fresh : Position :=
              { symbol := symbol, direction := direction, volume := volume,
                price := price, pnl := 0, frozen := 0 }
            { a with positions := insertPos a.positions key fresh }
    | .close_pos =>
        match lookupPos a.positions key with
        | some pos =>
            if volume ≤ pos.volume then
              if pos.volume - volume = 0 then
                { a with positions := erasePos a.positions key }
              else
                let reduced := { pos with volume := pos.volume - volume }
                { a with positions := insertPos a.positions key reduced }
            else a
        | none => a
  match offset_flag with
  | .open_pos =>
      { a1 with margin := a1.margin + price * (volume : Rat) * (1/10),
                available := a1.available - price * (volume : Rat) * (1/10) }
  | .close_pos =>
      { a1 with margin := a1.margin - price * (volume : Rat) * (1/10),
                available := a1.available + price * (volume : Rat) * (1/10) }

/-- AccountManager.calculate_position_pnl: tries the long key first, then
the short key, and returns 0 when neither is present. -/
def AccountManager.calculate_position_pnl (a : AccountManager) (symbol : String)
    (current_price : Rat) : Rat :=
  match lookupPos a.positions (symbol ++ "_" ++ PositionDirection.LONG.toValue) with
  | some p => p.update_pnl current_price
  | none =>
      match lookupPos a.positions (symbol ++ "_" ++ PositionDirection.SHORT.toValue) with
      | some p => p.update_pnl current_price
      | none => 0

/-- AccountManager.record_trade: appends the record, accumulates the
commission, and deducts it from available funds. -/
def AccountManager.record_trade (a : AccountManager) (symbol : String)
    (direction : String) (volume : Int) (price : Rat) (trade_time : String)
    (commission : Rat) : AccountManager :=
  { a with
    trade_records := a.trade_records ++
      [{ symbol := symbol, direction := direction, volume := volume,
         price := price, trade_time := trade_time, commission := commission }]
    commission := a.commission + commission
    available := a.available - commission }

/-- The dictionary produced by AccountManager.to_dict: per-position data is
asdict of the Position (all six fields), and the trade / order logs are
serialized only as their lengths. -/
structure AccountSnapshot where
  account_id : String
  initial_capital : Rat
  balance : Rat
  available : Rat
  frozen : Rat
  margin : Rat
  commission : Rat
  positions : List (String × Position)
  update_time : Int
  trade_records_count : Nat
  order_records_count : Nat
deriving DecidableEq, Repr

/-- AccountManager.to_dict. -/
def AccountManager.to_dict (a : AccountManager) : AccountSnapshot :=
  { account_id := a.account_id
    initial_capital := a.initial_capital
    balance := a.balance
    available := a.available
    frozen := a.frozen
    margin := a.margin
    commission := a.commission
    positions := a.positions
    update_time := a.update_time
    trade_records_count := a.trade_records.length
    order_records_count := a.order_records.length }

/-- AccountManager.load_from_file applied to a parsed snapshot: builds a
fresh manager from account_id and initial_capital, overwrites the money
fields and update_time, and re-inserts each serialized position.  The
trade and order logs are not in the snapshot, so they stay empty.  Note
that a snapshot can only reach disk through save_to_file below, which
fails whenever the positions map is non-empty; the rebuild loop here is
kept as written in the source, though the on-disk path can feed it only
position-free snapshots. -/
def AccountManager.load_from_file (data : AccountSnapshot) : AccountManager :=
  let base := AccountManager.init data.account_id data.initial_capital data.update_time
  { base with
    balance := data.balance
    available := data.available
    frozen := data.frozen
    margin := data.margin
    commission := data.commission
    update_time := data.update_time
    positions := data.positions.map (fun kv =>
      (kv.1,
        { symbol := kv.2.symbol, direction := kv.2.direction, volume := kv.2.volume,
          price := kv.2.price, pnl := kv.2.pnl, frozen := kv.2.frozen })) }

/-- AccountManager.save_to_file: json.dump of the to_dict snapshot.
dataclasses.asdict keeps the PositionDirection Enum member inside every
serialized position (the enum is not a str subclass), and json.dump is
called with no default hook, so the dump raises TypeError exactly when the
positions map is non-empty; every other snapshot field is a JSON-native
string or number.  The fallible call is modelled as Except, with the
raised TypeError as the error case. -/
def AccountManager.save_to_file (a : AccountManager) : Except String AccountSnapshot :=
  if a.positions.isEmpty then Except.ok a.to_dict
  else Except.error "TypeError: Object of type PositionDirection is not JSON serializable"

/-- DailyDrawdownRisk state from daily_drawdown_risk.py; calendar days are
modelled as integers. -/
structure DailyDrawdownRisk where
  max_daily_loss : Rat
  trading_enabled : Bool
  day_start_balance : Option Rat
  current_day : Int
deriving DecidableEq, Repr

/-- DailyDrawdownRisk.__init__ (trading enabled, no day-start balance yet). -/
def DailyDrawdownRisk.init (max_daily_loss : Rat) (today : Int) : DailyDrawdownRisk :=
  { max_daily_loss := max_daily_loss
    trading_enabled := true
    day_start_balance := none
    current_day := today }

/-- DailyDrawdownRisk.update_account: on a new calendar day, reset the day
start balance and re-enable trading; on first initialization just record
the balance and return; otherwise trip the gate when the drawdown from the
day-start balance reaches max_daily_loss. -/
def DailyDrawdownRisk.update_account (r : DailyDrawdownRisk) (today : Int)
    (balance : Rat) : DailyDrawdownRisk :=
  let r1 :=
    if today ≠ r.current_day then
      { r with current_day := today, day_start_balance := some balance,
               trading_enabled := true }
    else r
  match r1.day_start_balance with
  | none => { r1 with day_start_balance := some balance }
  | some day_start =>
      if day_start - balance ≥ r1.max_daily_loss then
        { r1 with trading_enabled := false }
      else r1

/-- DailyDrawdownRisk.allow_trade. -/
def DailyDrawdownRisk.allow_trade (r : DailyDrawdownRisk) : Bool :=
  r.trading_enabled

/-- ContractSpec record from contract_specs.py. -/
structure ContractSpec where
  exchange : String
  name : String
  size : Rat
  price_tick : Rat
  margin_ratio : Rat
  commission_open : Rat
  commission_close : Rat
  commission_close_today : Rat
deriving DecidableEq, Repr

/-- The rb2605 table entry (rebar). -/
def rbSpec : ContractSpec :=
  { exchange := "SHFE", name := "螺纹钢", size := 10, price_tick := 1,
    margin_ratio := 9/100, commission_open := 1/10000,
    commission_close := 1/10000, commission_close_today := 1/10000 }

/-- The cu2605 table entry (copper). -/
def cuSpec : ContractSpec :=
  { exchange := "SHFE", name := "阴极铜", size := 5, price_tick := 10,
    margin_ratio := 12/100, commission_open := 5/100000,
    commission_close := 5/100000, commission_close_today := 5/100000 }

/-- The ni2605 table entry (nickel). -/
def niSpec : ContractSpec :=
  { exchange := "SHFE", name := "镍", size := 1, price_tick := 10,
    margin_ratio := 12/100, commission_open := 3,
    commission_close := 3, commission_close_today := 6 }

/-- The SR309 table entry (sugar). -/
def srSpec : ContractSpec :=
  { exchange := "CZCE", name := "白糖", size := 10, price_tick := 1,
    margin_ratio := 5/100, commission_open := 3,
    commission_close := 3, commission_close_today := 3 }

/-- The IF2606 table entry (index futures). -/
def ifSpec : ContractSpec :=
  { exchange := "CFFEX", name := "沪深300股指", size := 300, price_tick := 1/5,
    margin_ratio := 1/10, commission_open := 0,
    commission_close := 23, commission_close_today := 23 }

/-- The literal default dict written inside get_contract_spec (it is dead
code in the source, because the rb2605 key is always present). -/
def writtenDefaultSpec : ContractSpec :=
  { exchange := "SHFE", name := "商品期货", size := 10, price_tick := 1,
    margin_ratio := 1/10, commission_open := 1/10000,
    commission_close := 1/10000, commission_close_today := 1/10000 }

/-- CONTRACT_SPECS in dict insertion order. -/
def CONTRACT_SPECS : List (String × ContractSpec) :=
  [("rb2605", rbSpec), ("cu2605", cuSpec), ("ni2605", niSpec),
   ("SR309", srSpec), ("IF2606", ifSpec)]

/-- Python str.startswith on code-point lists. -/
def charsStartWith : List Char → List Char → Bool
  | _, [] => true
  | [], _ :: _ => false
  | c :: cs, d :: ds => if c = d then charsStartWith cs ds else false

/-- The for loop inside get_contract_spec: return the spec of the first
table key that starts with the given two-character slice. -/
def findSpecByHead : List (String × ContractSpec) → List Char → Option ContractSpec
  | [], _ => none
  | (key, spec) :: rest, head2 =>
      if charsStartWith key.toList head2 then some spec else findSpecByHead rest head2

/-- Dict lookup used by the fallback CONTRACT_SPECS.get. -/
def findSpecByKey : List (String × ContractSpec) → String → Option ContractSpec
  | [], _ => none
  | (key, spec) :: rest, k =>
      if key = k then some spec else findSpecByKey rest k

/-- get_contract_spec from contract_specs.py: scan the table for a key that
starts with the first two characters of the symbol; otherwise fall back to
CONTRACT_SPECS.get of the rb2605 key with the written default. -/
def get_contract_spec (symbol : String) : ContractSpec :=
  match findSpecByHead CONTRACT_SPECS (symbol.toList.take 2) with
  | some spec => spec
  | none =>
      match findSpecByKey CONTRACT_SPECS "rb2605" with
      | some spec => spec
      | none => writtenDefaultSpec

/-- Length of the longest common prefix of two strings, used to state the
spec's longest-matching-prefix reading of catalog lookup. -/
def commonPrefixLen : List Char → List Char → Nat
  | c :: cs, d :: ds => if c = d then commonPrefixLen cs ds + 1 else 0
  | _, _ => 0

/-- Trade direction used by smart_auto_trading.py. -/
inductive Direction where
  | LONG
  | SHORT
deriving DecidableEq, Repr

/-- Offset used by smart_auto_trading.py. -/
inductive Offset where
  | OPEN
  | CLOSE
  | CLOSE_TODAY
deriving DecidableEq, Repr

/-- calculate_required_margin from smart_auto_trading.py. -/
def calculate_required_margin (spec : ContractSpec) (price : Rat) (volume : Rat) : Rat :=
  price * spec.size * volume * spec.margin_ratio

/-- calculate_commission from smart_auto_trading.py: select the configured
rate by offset and direction, then treat it as a fixed per-lot fee when it
exceeds 1, otherwise as a rate on notional. -/
def calculate_commission (spec : ContractSpec) (price : Rat) (volume : Rat)
    (direction : Direction) (offset : Offset) : Rat :=
  let commission_rate :=
    if offset = Offset.OPEN then spec.commission_open
    else if direction = Direction.SHORT ∧ offset = Offset.CLOSE_TODAY then
      spec.commission_close_today
    else if offset = Offset.CLOSE_TODAY then spec.commission_close_today
    else spec.commission_close
  if commission_rate > 1 then commission_rate * volume
  else price * spec.size * volume * commission_rate

/-- calculate_potential_profit from smart_auto_trading.py. -/
def calculate_potential_profit (spec : ContractSpec) (entry_price exit_price : Rat)
    (volume : Rat) (direction : Direction) : Rat :=
  match direction with
  | .LONG => (exit_price - entry_price) * spec.size * volume
  | .SHORT => (entry_price - exit_price) * spec.size * volume

/-- is_profitable_trade from smart_auto_trading.py (current_capital is the
instance field read inside the method, passed here explicitly). -/
def is_profitable_trade (spec : ContractSpec) (current_capital : Rat)
    (expected_return : Rat) (entry_price : Rat) (volume : Rat)
    (direction : Direction) : Bool :=
  let expected_exit_price :=
    match direction with
    | .LONG => entry_price * (1 + expected_return)
    | .SHORT => entry_price * (1 - expected_return)
  let potential_profit :=
    calculate_potential_profit spec entry_price expected_exit_price volume direction
  let open_commission :=
    calculate_commission spec entry_price volume direction Offset.OPEN
  let close_commission :=
    calculate_commission spec expected_exit_price volume direction Offset.CLOSE
  let total_commission := open_commission + close_commission
  let net_profit := potential_profit - total_commission
  let required_margin := calculate_required_margin spec entry_price volume
  let min_net_profit := total_commission * (1/2)
  decide (net_profit > min_net_profit) && decide (current_capital ≥ required_margin)

/-- Best bid / ask snapshot (the last_tick recorded by on_tick in the
scalping and hybrid strategies). -/
structure TickSnapshot where
  bid_price_1 : Rat
  ask_price_1 : Rat
  bid_volume_1 : Rat
  ask_volume_1 : Rat
deriving DecidableEq, Repr

/-- check_orderflow from scalping_orderflow_strategy.py (identical in
hybrid_trend_scalp_strategy.py): reject when no tick has arrived, when the
spread exceeds max_spread_tick price ticks, when the book imbalance does
not favour the entry direction, or when the last tick is older than 2
seconds.  isLong distinguishes the "long" string from other directions. -/
def check_orderflow (last_tick : Option TickSnapshot) (pricetick : Rat)
    (max_spread_tick : Rat) (order_imbalance_ratio : Rat)
    (now last_tick_time : Rat) (isLong : Bool) : Bool :=
  match last_tick with
  | none => false
  | some tick =>
      if tick.ask_price_1 - tick.bid_price_1 > max_spread_tick * pricetick then false
      else if isLong then
        if tick.bid_volume_1 < tick.ask_volume_1 * order_imbalance_ratio then false
        else if now - last_tick_time > 2 then false
        else true
      else
        if tick.ask_volume_1 < tick.bid_volume_1 * order_imbalance_ratio then false
        else if now - last_tick_time > 2 then false
        else true

/-- Exit action decided by the position-management block at the bottom of
on_bar (scalping strategy) and on_1min_bar (hybrid strategy).  The
takeProfit and stopLoss labels name the two branches, which the hybrid
strategy distinguishes in its log lines; hold means no close is emitted. -/
inductive ExitIntent where
  | takeProfit
  | stopLoss
  | hold
deriving DecidableEq, Repr

/-- The exit block of on_bar / on_1min_bar: for a long position the
take-profit branch is tested first, then the stop-loss branch; symmetric
for a short position; a flat position emits nothing. -/
def exitDecision (pos : Int) (price entry_price tick : Rat)
    (take_profit_tick stop_loss_tick : Rat) : ExitIntent :=
  if pos > 0 then
    if price ≥ entry_price + take_profit_tick * tick then ExitIntent.takeProfit
    else if price ≤ entry_price - stop_loss_tick * tick then ExitIntent.stopLoss
    else ExitIntent.hold
  else if pos < 0 then
    if price ≤ entry_price - take_profit_tick * tick then ExitIntent.takeProfit
    else if price ≥ entry_price + stop_loss_tick * tick then ExitIntent.stopLoss
    else ExitIntent.hold
  else ExitIntent.hold

/-- One fill operation fed to AccountManager.update_position. -/
structure FillOp where
  symbol : String
  direction : PositionDirection
  volume : Int
  price : Rat
  offset_flag : OffsetFlag
deriving DecidableEq, Repr

/-- Apply a sequence of fills to the ledger, left to right. -/
def applyOps (a : AccountManager) (ops : List FillOp) : AccountManager :=
  ops.foldl
    (fun acc op => acc.update_position op.symbol op.direction op.volume op.price op.offset_flag)
    a

/-- Every entry of the position map has strictly positive volume. -/
def PosMapPositive (m : List (String × Position)) : Prop :=
  ∀ e ∈ m, 0 < e.2.volume

/-- Follows the spec's words for claim C1: unrealized PnL is
(mark_price − entry_price) × sign(side) × lot_size × volume. -/
def spec_unrealized_pnl (mark_price entry_price sign lot_size volume : Rat) : Rat :=
  (mark_price - entry_price) * sign * lot_size * volume

/-- Follows the spec's words for claim C4 (spec section 4.4, step 3): one
commission leg is a fixed per-lot fee when the configured value exceeds 1,
otherwise a rate applied to the notional. -/
def spec_commission_leg (configured price lot_size volume : Rat) : Rat :=
  if 1 < configured then configured * volume
  else configured * (price * lot_size * volume)

/-- Follows the spec's words for claim C4 (spec section 4.4, steps 1-5):
the acceptance predicate of the profitability evaluator. -/
def spec_accepts (spec : ContractSpec) (available_capital expected_return entry_price volume : Rat)
    (direction : Direction) : Prop :=
  let exit_price :=
    match direction with
    | .LONG => entry_price * (1 + expected_return)
    | .SHORT => entry_price * (1 - expected_return)
  let potential_profit :=
    match direction with
    | .LONG => (exit_price - entry_price) * spec.size * volume
    | .SHORT => (entry_price - exit_price) * spec.size * volume
  let total_commission :=
    spec_commission_leg spec.commission_open entry_price spec.size volume +
      spec_commission_leg spec.commission_close exit_price spec.size volume
  let net_profit := potential_profit - total_commission
  let required_margin := entry_price * spec.size * volume * spec.margin_ratio
  net_profit > (1/2) * total_commission ∧ available_capital ≥ required_margin

/-- The contract spec of the worked profitability example in the spec:
lot size 10, margin ratio 0.09, fixed commission 3 per lot on each leg. -/
def exampleC4Spec : ContractSpec :=
  { exchange := "SHFE", name := "example", size := 10, price_tick := 1,
    margin_ratio := 9/100, commission_open := 3,
    commission_close := 3, commission_close_today := 3 }

end Trading

namespace Trading

theorem lookupPos_mem {m : List (String × Position)} {k : String} {p : Position}
    (h : lookupPos m k = some p) : (k, p) ∈ m := by
  induction m with
  | nil => simp [lookupPos] at h
  | cons hd tl ih =>
      obtain ⟨k0, p0⟩ := hd
      by_cases hk : k0 = k
      · subst hk
        simp [lookupPos] at h
        subst h
        exact List.mem_cons_self _ _
      · simp [lookupPos, hk] at h
        exact List.mem_cons_of_mem _ (ih h)

theorem mem_insertPos {m : List (String × Position)} {k : String} {v : Position}
    {e : String × Position} (h : e ∈ insertPos m k v) : e = (k, v) ∨ e ∈ m := by
  induction m with
  | nil => simpa [insertPos] using h
  | cons hd tl ih =>
      obtain ⟨k0, p0⟩ := hd
      by_cases hk : k0 = k
      · simp [insertPos, hk] at h
        rcases h with h | h
        · exact Or.inl (by simp [h])
        · exact Or.inr (List.mem_cons_of_mem _ h)
      · simp [insertPos, hk] at h
        rcases h with h | h
        · exact Or.inr (by simp [h])
        · rcases ih h with h' | h'
          · exact Or.inl h'
          · exact Or.inr (List.mem_cons_of_mem _ h')

theorem mem_erasePos {m : List (String × Position)} {k : String}
    {e : String × Position} (h : e ∈ erasePos m k) : e ∈ m := by
  induction m with
  | nil => simp [erasePos] at h
  | cons hd tl ih =>
      obtain ⟨k0, p0⟩ := hd
      by_cases hk : k0 = k
      · simp [erasePos, hk] at h
        exact List.mem_cons_of_mem _ h
      · simp [erasePos, hk] at h
        rcases h with h | h
        · exact List.mem_cons.mpr (Or.inl h)
        · exact List.mem_cons_of_mem _ (ih h)

theorem update_position_preserves_positive (a : AccountManager) (symbol : String)
    (direction : PositionDirection) (volume : Int) (price : Rat)
    (offset_flag : OffsetFlag) (hv : 0 < volume)
    (hinv : PosMapPositive a.positions) :
    PosMapPositive ((a.update_position symbol direction volume price offset_flag).positions) := by
  intro e he
  cases offset_flag with
  | open_pos =>
      cases hl : lookupPos a.positions (positionKey symbol direction) with
      | some old_pos =>
          simp only [AccountManager.update_position, hl] at he
          rcases mem_insertPos he with rfl | he'
          · have hold : 0 < old_pos.volume := hinv _ (lookupPos_mem hl)
            simpa using by omega
          · exact hinv _ he'
      | none =>
          simp only [AccountManager.update_position, hl] at he
          rcases mem_insertPos he with rfl | he'
          · simpa using hv
          · exact hinv _ he'
  | close_pos =>
      cases hl : lookupPos a.positions (positionKey symbol direction) with
      | some pos =>
          by_cases hle : volume ≤ pos.volume
          · by_cases hz : pos.volume - volume = 0
            · simp only [AccountManager.update_position, hl, if_pos hle, if_pos hz] at he
              exact hinv _ (mem_erasePos he)
            · simp only [AccountManager.update_position, hl, if_pos hle, if_neg hz] at he
              rcases mem_insertPos he with rfl | he'
              · simpa using by omega
              · exact hinv _ he'
          · simp only [AccountManager.update_position, hl, if_neg hle] at he
            exact hinv _ he
      | none =>
          simp only [AccountManager.update_position, hl] at he
          exact hinv _ he

theorem applyOps_preserves_positive (ops : List FillOp) :
    ∀ a : AccountManager, (∀ op ∈ ops, 0 < op.volume) →
      PosMapPositive a.positions → PosMapPositive (applyOps a ops).positions := by
  induction ops with
  | nil => intro a _ hinv; simpa [applyOps] using hinv
  | cons op rest ih =>
      intro a hops hinv
      have hstep := update_position_preserves_positive a op.symbol op.direction
        op.volume op.price op.offset_flag (hops op (List.mem_cons_self _ _)) hinv
      have := ih (a.update_position op.symbol op.direction op.volume op.price op.offset_flag)
        (fun o ho => hops o (List.mem_cons_of_mem _ ho)) hstep
      simpa [applyOps] using this

/-- C9 (counterexample): an opening fill of volume 0 on a flat (symbol, side)
creates a position entry whose volume is 0 and leaves it in the map, so the
no-zero-volume-entry invariant as claimed does not hold for volume-0 fills. -/
theorem C9_counterexample :
    lookupPos ((AccountManager.init "test" 100000 0).update_position "rb2602"
        PositionDirection.LONG 0 4000 OffsetFlag.open_pos).positions
      (positionKey "rb2602" PositionDirection.LONG) =
    some { symbol := "rb2602", direction := PositionDirection.LONG, volume := 0,
           price := 4000, pnl := 0, frozen := 0 } := by
  decide

/-- C9 (amended): after every sequence of fill operations with strictly
positive volumes, starting from a fresh ledger, every entry of the position
map has strictly positive volume; in particular no entry with volume 0
persists (a close that reaches volume 0 deletes the entry). -/
theorem C9_no_zero_volume_entries (account_id : String) (cap : Rat) (now : Int)
    (ops : List FillOp) (hops : ∀ op ∈ ops, 0 < op.volume) :
    ∀ e ∈ (applyOps (AccountManager.init account_id cap now) ops).positions,
      0 < e.2.volume := by
  exact applyOps_preserves_positive ops (AccountManager.init account_id cap now) hops
    (by intro e he; simp [AccountManager.init] at he)

/-- C9 (witness): the amended theorem applied to the concrete fill sequence
open 2 lots of rb2602 at 4000 then close 1 lot, whose surviving entry has
volume 1. -/
theorem C9_witness :
    0 < (Position.mk "rb2602" PositionDirection.LONG 1 4000 0 0).volume :=
  C9_no_zero_volume_entries "test" 100000 0
    [{ symbol := "rb2602", direction := PositionDirection.LONG, volume := 2,
       price := 4000, offset_flag := OffsetFlag.open_pos },
     { symbol := "rb2602", direction := PositionDirection.LONG, volume := 1,
       price := 4000, offset_flag := OffsetFlag.close_pos }]
    (by decide)
    (positionKey "rb2602" PositionDirection.LONG,
      Position.mk "rb2602" PositionDirection.LONG 1 4000 0 0)
    (by decide)

/-- C10 (confirmed): closing against a (symbol, side) with no tracked entry
leaves the position map, balance and cumulative commission unchanged, yet
still decreases margin by price × volume × 0.1 and increases available
funds by the same amount. -/
theorem C10_close_without_position (a : AccountManager) (symbol : String)
    (direction : PositionDirection) (volume : Int) (price : Rat)
    (hn : lookupPos a.positions (positionKey symbol direction) = none)
    (_hv : 0 < volume) :
    (a.update_position symbol direction volume price OffsetFlag.close_pos).positions
        = a.positions ∧
    (a.update_position symbol direction volume price OffsetFlag.close_pos).balance
        = a.balance ∧
    (a.update_position symbol direction volume price OffsetFlag.close_pos).commission
        = a.commission ∧
    (a.update_position symbol direction volume price OffsetFlag.close_pos).margin
        = a.margin - price * (volume : Rat) * (1/10) ∧
    (a.update_position symbol direction volume price OffsetFlag.close_pos).available
        = a.available + price * (volume : Rat) * (1/10) := by
  simp [AccountManager.update_position, hn]

/-- C10 (witness): the theorem at a fresh ledger, closing 1 lot at price
4000 with no open position. -/
theorem C10_witness :
    ((AccountManager.init "test" 100000 0).update_position "rb2602"
        PositionDirection.SHORT 1 4000 OffsetFlag.close_pos).positions
        = (AccountManager.init "test" 100000 0).positions ∧
    ((AccountManager.init "test" 100000 0).update_position "rb2602"
        PositionDirection.SHORT 1 4000 OffsetFlag.close_pos).balance
        = (AccountManager.init "test" 100000 0).balance ∧
    ((AccountManager.init "test" 100000 0).update_position "rb2602"
        PositionDirection.SHORT 1 4000 OffsetFlag.close_pos).commission
        = (AccountManager.init "test" 100000 0).commission ∧
    ((AccountManager.init "test" 100000 0).update_position "rb2602"
        PositionDirection.SHORT 1 4000 OffsetFlag.close_pos).margin
        = (AccountManager.init "test" 100000 0).margin - 4000 * ((1 : Int) : Rat) * (1/10) ∧
    ((AccountManager.init "test" 100000 0).update_position "rb2602"
        PositionDirection.SHORT 1 4000 OffsetFlag.close_pos).available
        = (AccountManager.init "test" 100000 0).available + 4000 * ((1 : Int) : Rat) * (1/10) :=
  C10_close_without_position (AccountManager.init "test" 100000 0) "rb2602"
    PositionDirection.SHORT 1 4000 (by decide) (by decide)

/-- C2 (counterexample): open 1 lot of rb2602 at 4000, then close 2 lots at
4000.  The claimed behavior (clamp to the available volume, so the entry is
fully closed and removed) does not happen: the entry survives untouched with
volume 1, no OverClose signal exists anywhere in the operation, and the
margin release is computed from the full requested 2 lots, driving margin to
-400. -/
theorem C2_counterexample :
    lookupPos (((AccountManager.init "test" 100000 0).update_position "rb2602"
        PositionDirection.LONG 1 4000 OffsetFlag.open_pos).update_position "rb2602"
        PositionDirection.LONG 2 4000 OffsetFlag.close_pos).positions
      (positionKey "rb2602" PositionDirection.LONG) =
    some { symbol := "rb2602", direction := PositionDirection.LONG, volume := 1,
           price := 4000, pnl := 0, frozen := 0 } ∧
    (((AccountManager.init "test" 100000 0).update_position "rb2602"
        PositionDirection.LONG 1 4000 OffsetFlag.open_pos).update_position "rb2602"
        PositionDirection.LONG 2 4000 OffsetFlag.close_pos).margin = -400 := by
  constructor
  · decide
  · norm_num [AccountManager.update_position, AccountManager.init, positionKey,
      PositionDirection.toValue, lookupPos, insertPos, erasePos]

/-- C2 (amended): a closing fill whose volume exceeds the tracked open
volume leaves the position map entirely unchanged (the close is ignored, not
clamped, and no signal of any kind is produced by the operation), so the
volume never goes below zero; the margin adjustment is still applied for the
full requested volume. -/
theorem C2_overclose_ignored (a : AccountManager) (symbol : String)
    (direction : PositionDirection) (volume : Int) (price : Rat) (pos : Position)
    (h : lookupPos a.positions (positionKey symbol direction) = some pos)
    (hv : pos.volume < volume) :
    (a.update_position symbol direction volume price OffsetFlag.close_pos).positions
        = a.positions ∧
    (a.update_position symbol direction volume price OffsetFlag.close_pos).margin
        = a.margin - price * (volume : Rat) * (1/10) ∧
    (a.update_position symbol direction volume price OffsetFlag.close_pos).available
        = a.available + price * (volume : Rat) * (1/10) ∧
    (a.update_position symbol direction volume price OffsetFlag.close_pos).balance
        = a.balance ∧
    (a.update_position symbol direction volume price OffsetFlag.close_pos).commission
        = a.commission := by
  have hle : ¬ (volume ≤ pos.volume) := not_le.mpr hv
  simp [AccountManager.update_position, h, hle]

/-- C2 (witness): the amended theorem at the concrete over-close of the
counterexample input. -/
theorem C2_witness :
    (((AccountManager.init "test" 100000 0).update_position "rb2602"
        PositionDirection.LONG 1 4000 OffsetFlag.open_pos).update_position "rb2602"
        PositionDirection.LONG 2 4000 OffsetFlag.close_pos).positions
        = ((AccountManager.init "test" 100000 0).update_position "rb2602"
            PositionDirection.LONG 1 4000 OffsetFlag.open_pos).positions ∧
    (((AccountManager.init "test" 100000 0).update_position "rb2602"
        PositionDirection.LONG 1 4000 OffsetFlag.open_pos).update_position "rb2602"
        PositionDirection.LONG 2 4000 OffsetFlag.close_pos).margin
        = ((AccountManager.init "test" 100000 0).update_position "rb2602"
            PositionDirection.LONG 1 4000 OffsetFlag.open_pos).margin
          - 4000 * ((2 : Int) : Rat) * (1/10) ∧
    (((AccountManager.init "test" 100000 0).update_position "rb2602"
        PositionDirection.LONG 1 4000 OffsetFlag.open_pos).update_position "rb2602"
        PositionDirection.LONG 2 4000 OffsetFlag.close_pos).available
        = ((AccountManager.init "test" 100000 0).update_position "rb2602"
            PositionDirection.LONG 1 4000 OffsetFlag.open_pos).available
          + 4000 * ((2 : Int) : Rat) * (1/10) ∧
    (((AccountManager.init "test" 100000 0).update_position "rb2602"
        PositionDirection.LONG 1 4000 OffsetFlag.open_pos).update_position "rb2602"
        PositionDirection.LONG 2 4000 OffsetFlag.close_pos).balance
        = ((AccountManager.init "test" 100000 0).update_position "rb2602"
            PositionDirection.LONG 1 4000 OffsetFlag.open_pos).balance ∧
    (((AccountManager.init "test" 100000 0).update_position "rb2602"
        PositionDirection.LONG 1 4000 OffsetFlag.open_pos).update_position "rb2602"
        PositionDirection.LONG 2 4000 OffsetFlag.close_pos).commission
        = ((AccountManager.init "test" 100000 0).update_position "rb2602"
            PositionDirection.LONG 1 4000 OffsetFlag.open_pos).commission :=
  C2_overclose_ignored _ "rb2602" PositionDirection.LONG 2 4000
    { symbol := "rb2602", direction := PositionDirection.LONG, volume := 1,
      price := 4000, pnl := 0, frozen := 0 }
    (by decide) (by decide)

/-- C1 (counterexample): with an open long position of 2 lots of rb2602 at
entry 4000 and mark price 4050, the ledger query returns 100 (no lot-size
factor), while the claimed formula with the catalog lot size 10 gives 1000. -/
theorem C1_counterexample :
    ((AccountManager.init "test" 100000 0).update_position "rb2602"
        PositionDirection.LONG 2 4000 OffsetFlag.open_pos).calculate_position_pnl
        "rb2602" 4050 = 100 ∧
    spec_unrealized_pnl 4050 4000 1 (get_contract_spec "rb2602").size 2 = 1000 ∧
    (100 : Rat) ≠ 1000 := by
  refine ⟨?_, ?_, by norm_num⟩
  · norm_num [AccountManager.update_position, AccountManager.init, positionKey,
      PositionDirection.toValue, lookupPos, insertPos,
      AccountManager.calculate_position_pnl, Position.update_pnl]
  · norm_num [spec_unrealized_pnl, get_contract_spec, findSpecByHead, findSpecByKey,
      charsStartWith, CONTRACT_SPECS, rbSpec]

/-- C1 (amended): the unrealized-PnL query takes only symbol and mark price;
it returns (mark − entry) × volume for the long entry when one exists,
otherwise (entry − mark) × volume for the short entry, and 0 when neither
exists — with no lot-size factor (the code behaves as if lot size were 1). -/
theorem C1_unrealized_pnl (a : AccountManager) (symbol : String) (mark_price : Rat) :
    (∀ p : Position,
        lookupPos a.positions (positionKey symbol PositionDirection.LONG) = some p →
        p.direction = PositionDirection.LONG →
        a.calculate_position_pnl symbol mark_price
          = (mark_price - p.price) * (p.volume : Rat)) ∧
    (∀ p : Position,
        lookupPos a.positions (positionKey symbol PositionDirection.LONG) = none →
        lookupPos a.positions (positionKey symbol PositionDirection.SHORT) = some p →
        p.direction = PositionDirection.SHORT →
        a.calculate_position_pnl symbol mark_price
          = (p.price - mark_price) * (p.volume : Rat)) ∧
    (lookupPos a.positions (positionKey symbol PositionDirection.LONG) = none →
        lookupPos a.positions (positionKey symbol PositionDirection.SHORT) = none →
        a.calculate_position_pnl symbol mark_price = 0) := by
  refine ⟨?_, ?_, ?_⟩
  · intro p hl hd
    simp [AccountManager.calculate_position_pnl, positionKey] at hl ⊢
    simp [hl, Position.update_pnl, hd]
  · intro p hlnone hs hd
    simp [AccountManager.calculate_position_pnl, positionKey] at hlnone hs ⊢
    simp [hlnone, hs, Position.update_pnl, hd]
  · intro hlnone hsnone
    simp [AccountManager.calculate_position_pnl, positionKey] at hlnone hsnone ⊢
    simp [hlnone, hsnone]

/-- C1 (witness): the amended theorem at the counterexample account, long
leg present. -/
theorem C1_witness :
    ((AccountManager.init "test" 100000 0).update_position "rb2602"
        PositionDirection.LONG 2 4000 OffsetFlag.open_pos).calculate_position_pnl
        "rb2602" 4050
      = (4050 - (4000 : Rat)) * (((2 : Int) : Rat)) :=
  (C1_unrealized_pnl _ "rb2602" 4050).1
    { symbol := "rb2602", direction := PositionDirection.LONG, volume := 2,
      price := 4000, pnl := 0, frozen := 0 }
    (by decide) (by decide)

theorem update_account_same_day_tripped (s : DailyDrawdownRisk) (day : Int) (b : Rat)
    (hs : s.trading_enabled = false) (hday : s.current_day = day) :
    (s.update_account day b).trading_enabled = false ∧
    (s.update_account day b).current_day = day := by
  simp only [DailyDrawdownRisk.update_account, hday, ne_eq, not_true_eq_false,
    if_false, ite_self]
  cases hb : s.day_start_balance with
  | none => simp [hb, hs, hday]
  | some d =>
      by_cases h : d - b ≥ s.max_daily_loss
      · simp [hb, h, hday]
      · simp [hb, h, hs, hday]

theorem foldl_update_account_tripped (day : Int) (obs : List Rat) :
    ∀ s : DailyDrawdownRisk, s.trading_enabled = false → s.current_day = day →
      (obs.foldl (fun t b => t.update_account day b) s).trading_enabled = false := by
  induction obs with
  | nil => intro s hs _; simpa using hs
  | cons b rest ih =>
      intro s hs hday
      have hstep := update_account_same_day_tripped s day b hs hday
      simpa using ih (s.update_account day b) hstep.1 hstep.2

/-- C3 (confirmed): the daily risk gate, for any positive max_daily_loss:
(1) a same-day observation of an armed gate with a recorded day-start
balance trips it exactly when day_start_balance − balance ≥ max_daily_loss;
(2) once tripped, any sequence of further same-day observations leaves it
tripped, no matter how the balance recovers; (3) the first observation
belonging to a new calendar day re-arms the gate and resets the day-start
balance to that observation's balance. -/
theorem C3_daily_gate (r : DailyDrawdownRisk) (hmdl : 0 < r.max_daily_loss) :
    (∀ d b, r.day_start_balance = some d → r.trading_enabled = true →
        ((r.update_account r.current_day b).trading_enabled = false ↔
          d - b ≥ r.max_daily_loss)) ∧
    (∀ obs : List Rat, r.trading_enabled = false →
        (obs.foldl (fun s b => s.update_account r.current_day b) r).trading_enabled
          = false) ∧
    (∀ today b, today ≠ r.current_day →
        (r.update_account today b).trading_enabled = true ∧
        (r.update_account today b).day_start_balance = some b ∧
        (r.update_account today b).current_day = today) := by
  refine ⟨?_, ?_, ?_⟩
  · intro d b hd he
    simp only [DailyDrawdownRisk.update_account, ne_eq, not_true_eq_false,
      if_false, ite_self]
    rw [hd]
    by_cases h : d - b ≥ r.max_daily_loss
    · simp [h]
    · simp [h, he]
  · intro obs hdis
    exact foldl_update_account_tripped r.current_day obs r hdis rfl
  · intro today b hday
    simp only [DailyDrawdownRisk.update_account, if_pos hday]
    have hnz : ¬ r.max_daily_loss ≤ 0 := not_le.mpr hmdl
    simp [hnz]

/-- C3 (witness): the theorem at the worked spec example: day-start balance
100000, max daily loss 5000, a same-day drop to 94000 trips the gate. -/
theorem C3_witness :
    (DailyDrawdownRisk.update_account
        { max_daily_loss := 5000, trading_enabled := true,
          day_start_balance := some 100000, current_day := 0 }
        0 94000).trading_enabled = false :=
  ((C3_daily_gate
      { max_daily_loss := 5000, trading_enabled := true,
        day_start_balance := some 100000, current_day := 0 }
      (by norm_num)).1 100000 94000 rfl rfl).mpr (by norm_num)

theorem calculate_commission_open_leg (spec : ContractSpec) (price volume : Rat)
    (direction : Direction) :
    calculate_commission spec price volume direction Offset.OPEN
      = spec_commission_leg spec.commission_open price spec.size volume := by
  simp only [calculate_commission, spec_commission_leg]
  simp only [reduceCtorEq, if_true, if_false, eq_self_iff_true, and_false,
    false_and, if_pos]
  split_ifs with h
  · rfl
  · ring

theorem calculate_commission_close_leg (spec : ContractSpec) (price volume : Rat)
    (direction : Direction) :
    calculate_commission spec price volume direction Offset.CLOSE
      = spec_commission_leg spec.commission_close price spec.size volume := by
  simp only [calculate_commission, spec_commission_leg]
  simp only [reduceCtorEq, if_true, if_false, eq_self_iff_true, and_false,
    false_and, if_pos]
  split_ifs with h
  · rfl
  · ring

/-- C4 (confirmed): for every contract spec, capital, expected return, entry
price, volume and direction, the evaluator accepts exactly when
net_profit > 0.5 × total_commission and the capital covers
entry_price × lot_size × volume × margin_ratio, with each commission leg
fixed per lot when the configured value exceeds 1 and rate × notional
otherwise; and at the worked spec example (entry 4000, lot size 10, margin
ratio 0.09, fixed commission 3 per lot per leg, expected return 0.01,
volume 1, capital 100000) the trade is accepted. -/
theorem C4_profitability :
    (∀ (spec : ContractSpec) (capital expected_return entry_price volume : Rat)
        (direction : Direction),
        is_profitable_trade spec capital expected_return entry_price volume direction
            = true ↔
          spec_accepts spec capital expected_return entry_price volume direction) ∧
    is_profitable_trade exampleC4Spec 100000 (1/100) 4000 1 Direction.LONG = true := by
  constructor
  · intro spec capital expected_return entry_price volume direction
    cases direction <;>
      simp only [is_profitable_trade, spec_accepts,
        calculate_commission_open_leg, calculate_commission_close_leg,
        Bool.and_eq_true, decide_eq_true_eq, calculate_potential_profit,
        calculate_required_margin] <;>
      constructor <;>
      rintro ⟨h1, h2⟩ <;>
      exact ⟨by linarith, h2⟩
  · norm_num [is_profitable_trade, calculate_commission, calculate_potential_profit,
      calculate_required_margin, exampleC4Spec]

/-- C5 (counterexample): with a degenerate minimum price increment of 0
(the only way both exit conditions can hold at once), price 4000 and entry
4000 satisfy both the take-profit and the stop-loss condition of a long
position, yet the emitted exit is the take-profit branch, not the claimed
stop-loss branch. -/
theorem C5_counterexample :
    ((4000 : Rat) ≥ 4000 + 2 * 0) ∧ ((4000 : Rat) ≤ 4000 - 3 * 0) ∧
    exitDecision 1 4000 4000 0 2 3 = ExitIntent.takeProfit ∧
    ExitIntent.takeProfit ≠ ExitIntent.stopLoss := by
  refine ⟨by norm_num, by norm_num, ?_, by decide⟩
  norm_num [exitDecision]

/-- C5 (amended): the take-profit branch is tested before the stop-loss
branch, so whenever the take-profit condition holds the emitted exit intent
is take-profit even if the stop-loss condition also holds; however, for any
positive minimum price increment and positive tick distances, the
take-profit and stop-loss conditions are mutually exclusive, so the two
conditions can never be simultaneously true on a real contract. -/
theorem C5_exit_priority :
    (∀ price entry_price tick take_profit_tick stop_loss_tick : Rat,
        0 < tick → 0 < take_profit_tick → 0 < stop_loss_tick →
        ¬(price ≥ entry_price + take_profit_tick * tick ∧
            price ≤ entry_price - stop_loss_tick * tick) ∧
        ¬(price ≤ entry_price - take_profit_tick * tick ∧
            price ≥ entry_price + stop_loss_tick * tick)) ∧
    (∀ (pos : Int) (price entry_price tick take_profit_tick stop_loss_tick : Rat),
        0 < pos → price ≥ entry_price + take_profit_tick * tick →
        exitDecision pos price entry_price tick take_profit_tick stop_loss_tick
          = ExitIntent.takeProfit) ∧
    (∀ (pos : Int) (price entry_price tick take_profit_tick stop_loss_tick : Rat),
        pos < 0 → price ≤ entry_price - take_profit_tick * tick →
        exitDecision pos price entry_price tick take_profit_tick stop_loss_tick
          = ExitIntent.takeProfit) := by
  refine ⟨?_, ?_, ?_⟩
  · intro price entry_price tick tp sl htick htp hsl
    have h1 : 0 < tp * tick := mul_pos htp htick
    have h2 : 0 < sl * tick := mul_pos hsl htick
    constructor
    · rintro ⟨ha, hb⟩
      linarith
    · rintro ⟨ha, hb⟩
      linarith
  · intro pos price entry_price tick tp sl hpos hcond
    simp [exitDecision, hpos, hcond]
  · intro pos price entry_price tick tp sl hpos hcond
    have hnotpos : ¬ (0 : Int) < pos := by omega
    simp [exitDecision, hnotpos, hpos, hcond]

/-- C5 (witness): the amended theorem at tick size 1, take-profit 2 ticks,
stop-loss 3 ticks, a long position entered at 4000 seeing price 4003. -/
theorem C5_witness :
    (¬((4003 : Rat) ≥ 4000 + 2 * 1 ∧ (4003 : Rat) ≤ 4000 - 3 * 1)) ∧
    exitDecision 1 4003 4000 1 2 3 = ExitIntent.takeProfit :=
  ⟨(C5_exit_priority.1 4003 4000 1 2 3 (by norm_num) (by norm_num) (by norm_num)).1,
   C5_exit_priority.2.1 1 4003 4000 1 2 3 (by norm_num) (by norm_num)⟩

/-- C6 (code bug, evaluated at the failing inputs): the required lossless
save/load round-trip is impossible.  First, the module's own demo state (a
ledger with one open rb2602 position) cannot be saved at all: save_to_file
raises TypeError because asdict keeps the PositionDirection Enum that
json.dump cannot serialize.  Second, even on a ledger that can be saved
(no open positions, one recorded trade), the snapshot records
trade_records_count 1 but the loaded ledger's own snapshot reports 0,
because the records themselves are never serialized or restored. -/
theorem C6_save_load_fails :
    ((AccountManager.init "test" 100000 0).update_position "rb2602"
        PositionDirection.LONG 2 4000 OffsetFlag.open_pos).save_to_file
      = Except.error
          "TypeError: Object of type PositionDirection is not JSON serializable" ∧
    (((AccountManager.init "test" 100000 0).record_trade "rb2602" "BUY" 2 4000
        "2025-01-01" 10).save_to_file).isOk = true ∧
    (AccountManager.load_from_file
        ((AccountManager.init "test" 100000 0).record_trade "rb2602" "BUY" 2 4000
          "2025-01-01" 10).to_dict).to_dict.trade_records_count = 0 ∧
    ((AccountManager.init "test" 100000 0).record_trade "rb2602" "BUY" 2 4000
        "2025-01-01" 10).to_dict.trade_records_count = 1 := by
  refine ⟨rfl, rfl, rfl, rfl⟩

/-- C7 (counterexample): catalog lookup is not longest-prefix matching and
its fallback is not the documented conservative default.  For the symbol
c2605 the cu2605 entry shares a 1-character prefix while rb2605 shares
none, yet the lookup returns the rb2605 spec (≠ the cu2605 spec); and for
the unmatched symbol zz9999 it returns the rb2605 entry, whose margin
ratio 0.09 is lower than the 0.10 of the unreachable written default. -/
theorem C7_counterexample :
    get_contract_spec "c2605" = rbSpec ∧
    commonPrefixLen "cu2605".toList "c2605".toList = 1 ∧
    commonPrefixLen "rb2605".toList "c2605".toList = 0 ∧
    rbSpec ≠ cuSpec ∧
    get_contract_spec "zz9999" = rbSpec ∧
    rbSpec.margin_ratio < writtenDefaultSpec.margin_ratio := by
  refine ⟨rfl, by decide, by decide, ?_, rfl, ?_⟩
  · intro h
    have hs := congrArg ContractSpec.size h
    norm_num [rbSpec, cuSpec] at hs
  · norm_num [rbSpec, writtenDefaultSpec]

/-- C7 (amended): the lookup scans the table in insertion order and returns
the spec of the first key that starts with the first two characters of the
queried symbol; when no key matches, it never fails and falls back to the
rb2605 table entry, which carries non-zero commission rates and a non-zero
margin ratio (but is not a longest-prefix match nor the written default). -/
theorem C7_catalog_lookup (symbol : String) :
    (∀ spec : ContractSpec,
        findSpecByHead CONTRACT_SPECS (symbol.toList.take 2) = some spec →
        get_contract_spec symbol = spec) ∧
    (findSpecByHead CONTRACT_SPECS (symbol.toList.take 2) = none →
        get_contract_spec symbol = rbSpec ∧
        0 < rbSpec.commission_open ∧ 0 < rbSpec.margin_ratio) := by
  constructor
  · intro spec hfind
    simp only [get_contract_spec]
    rw [hfind]
  · intro hnone
    refine ⟨?_, by norm_num [rbSpec], by norm_num [rbSpec]⟩
    simp only [get_contract_spec]
    rw [hnone]
    rfl

/-- C7 (witness): the amended theorem at the unmatched symbol zz9999,
taking the fallback branch. -/
theorem C7_witness :
    get_contract_spec "zz9999" = rbSpec ∧
    0 < rbSpec.commission_open ∧ 0 < rbSpec.margin_ratio :=
  (C7_catalog_lookup "zz9999").2 (by decide)

/-- C8 (confirmed): given a recorded book snapshot, the order-flow filter
passes exactly when the spread is at most max_spread_tick price ticks, the
direction-appropriate imbalance holds (bid volume at least ask volume times
the ratio for long; symmetric for short), and the snapshot is at most 2
seconds old — three conjunctive checks on a pure function of these inputs;
moreover, at the spec example (bid 3999, ask 4003, tick 1, max spread 2)
the filter rejects regardless of direction, imbalance or timing. -/
theorem C8_orderflow_filter :
    (∀ (t : TickSnapshot) (pricetick max_spread_tick ratio now last_tick_time : Rat),
        check_orderflow (some t) pricetick max_spread_tick ratio now last_tick_time true
            = true ↔
          (t.ask_price_1 - t.bid_price_1 ≤ max_spread_tick * pricetick ∧
           t.ask_volume_1 * ratio ≤ t.bid_volume_1 ∧
           now - last_tick_time ≤ 2)) ∧
    (∀ (t : TickSnapshot) (pricetick max_spread_tick ratio now last_tick_time : Rat),
        check_orderflow (some t) pricetick max_spread_tick ratio now last_tick_time false
            = true ↔
          (t.ask_price_1 - t.bid_price_1 ≤ max_spread_tick * pricetick ∧
           t.bid_volume_1 * ratio ≤ t.ask_volume_1 ∧
           now - last_tick_time ≤ 2)) ∧
    (∀ (bv av ratio now last_tick_time : Rat) (isLong : Bool),
        check_orderflow
          (some { bid_price_1 := 3999, ask_price_1 := 4003,
                  bid_volume_1 := bv, ask_volume_1 := av })
          1 2 ratio now last_tick_time isLong = false) := by
  refine ⟨?_, ?_, ?_⟩
  · intro t pricetick max_spread_tick ratio now last_tick_time
    simp only [check_orderflow, if_true]
    split_ifs with h1 h2 h3
    · simp only [Bool.false_eq_true, false_iff]
      rintro ⟨ha, -, -⟩
      linarith
    · simp only [Bool.false_eq_true, false_iff]
      rintro ⟨-, hb, -⟩
      linarith
    · simp only [Bool.false_eq_true, false_iff]
      rintro ⟨-, -, hc⟩
      linarith
    · simp only [true_iff]
      exact ⟨by linarith, by linarith, by linarith⟩
  · intro t pricetick max_spread_tick ratio now last_tick_time
    simp only [check_orderflow, Bool.false_eq_true, if_false]
    split_ifs with h1 h2 h3
    · simp only [Bool.false_eq_true, false_iff]
      rintro ⟨ha, -, -⟩
      linarith
    · simp only [Bool.false_eq_true, false_iff]
      rintro ⟨-, hb, -⟩
      linarith
    · simp only [Bool.false_eq_true, false_iff]
      rintro ⟨-, -, hc⟩
      linarith
    · simp only [true_iff]
      exact ⟨by linarith, by linarith, by linarith⟩
  · intro bv av ratio now last_tick_time isLong
    cases isLong <;>
      simp only [check_orderflow] <;>
      rw [if_pos (by norm_num)]

end Trading
